import Mathlib

/-!
Shallow embedding of `src/metadata_converter.py` (NIC metadata to Dublin Core /
DCAT converter).  Pandas cells are modelled by `Cell` (a key missing from the
row mapping, a null/NaN cell, a string cell, or an integer-valued numeric
cell); a data frame is a list of rows processed with its ordinal index, which
is what `df.iterrows()` yields for the default range index.  RDF predicates
are modelled by an enumeration whose constructors stand for the distinct
vocabulary URIs bound in the script (`DCT`/`DCTERMS`, `DCAT`, `RDF`); objects
keep the rdflib distinction between plain literals, datatyped literals,
integer-valued literals and URI references.  The graph is modelled as the
list of triples in the order the `g.add` calls run (rdflib graphs are
duplicate-tolerant triple containers; per-row emission order is what the
claims are about).
-/

namespace MetaConv

/-- A pandas cell as seen by `row.get`: the key may be missing from the row
mapping (`absent`, where `row.get` returns its default), the value may be
null/NaN (`na`, where `pd.notna` is false), or it is a string or an
integer-valued number. -/
inductive Cell where
  | absent : Cell
  | na : Cell
  | str : String → Cell
  | int : Int → Cell
deriving DecidableEq, Repr

/-- `pd.notna` on a cell value; `row.get` with no default returns Python
`None` for a missing key, and `pd.notna(None)` is false. -/
def Cell.notna : Cell → Bool
  | .str _ => true
  | .int _ => true
  | _ => false

/-- `row.get(key, default)`: the default replaces only a missing key, never a
null cell. -/
def Cell.getD (c d : Cell) : Cell :=
  match c with
  | .absent => d
  | c => c

/-- Python `str(...)` of a cell value, as used inside the f-strings and
`Literal(...)` calls (`str(nan) = "nan"`, `str(None) = "None"`). -/
def Cell.toStr : Cell → String
  | .str s => s
  | .int n => toString n
  | .na => "nan"
  | .absent => "None"

/-- Python truthiness of an optional string (`if desc:`): false for `None`
and for the empty string. -/
def truthy : Option String → Bool
  | some s => !(s == "")
  | none => false

/-- ASCII whitespace stripped by Python `str.strip()` (the source data is
ASCII; the full Unicode whitespace set is not needed here). -/
def isPySpace (c : Char) : Bool :=
  c == ' ' || c == '\t' || c == '\n' || c == '\r' || c == '\x0b' || c == '\x0c'

/-- Python `str.strip()`. -/
def pyStrip (s : String) : String :=
  ⟨((s.data.dropWhile isPySpace).reverse.dropWhile isPySpace).reverse⟩

/-- Python `str.lower()` (ASCII case mapping suffices for the vocabulary). -/
def pyLower (s : String) : String :=
  ⟨s.data.map Char.toLower⟩

/-- Python `s.split(sep)` for a single-character separator: every occurrence
splits, empty parts are kept, and the empty string yields `[""]`. -/
def pySplitChar (sep : Char) : List Char → List (List Char)
  | [] => [[]]
  | c :: rest =>
    let r := pySplitChar sep rest
    if c == sep then [] :: r
    else
      match r with
      | [] => [[c]]
      | h :: t => (c :: h) :: t

/-- Python `s.split(c)` returning strings. -/
def pySplit (sep : Char) (s : String) : List String :=
  (pySplitChar sep s.data).map (fun cs => ⟨cs⟩)

/-- Digit accumulator: the numeric value of a decimal digit string. -/
def decVal (cs : List Char) : Nat :=
  cs.foldl (fun a c => a * 10 + (c.toNat - 48)) 0

/-- The decimal digit character for `d` (`'0'` + d). -/
def decDigit (d : Nat) : Char :=
  Char.ofNat (48 + d)

/-- Fuel-driven decimal rendering: digits of `n`, most significant first. -/
def natToDecAux : Nat → Nat → List Char
  | 0, _ => []
  | fuel + 1, n =>
    if n < 10 then [decDigit n]
    else natToDecAux fuel (n / 10) ++ [decDigit (n % 10)]

/-- Python `str(n)` for a natural number: its decimal representation. -/
def natToDec (n : Nat) : String :=
  ⟨natToDecAux (n + 1) n⟩

/-- One record of the input table: one `SourceRow`.  Every attribute is a
possibly-missing, possibly-null cell. -/
structure Row where
  node_alias : Cell
  title : Cell
  catalog_title : Cell
  note : Cell
  published_date : Cell
  changed : Cell
  created : Cell
  ministry_department : Cell
  state_department : Cell
  frequency : Cell
  sector : Cell
  datafile_url : Cell
  datafile : Cell
  file_format : Cell
  file_size : Cell
deriving DecidableEq, Repr

/-- The `freq_mapping` dict of `normalize_frequency`. -/
def freq_mapping : List (String × String) :=
  [("daily", "http://purl.org/cld/freq/daily"),
   ("weekly", "http://purl.org/cld/freq/weekly"),
   ("monthly", "http://purl.org/cld/freq/monthly"),
   ("yearly", "http://purl.org/cld/freq/annual"),
   ("quarterly", "http://purl.org/cld/freq/quarterly")]

/-- `normalize_frequency(freq)`: absent/null propagates; otherwise lower-case
and strip, then `freq_mapping.get(freq_lower, freq_lower)`. -/
def normalize_frequency (freq : Cell) : Option String :=
  if freq.notna then
    let freq_lower := pyStrip (pyLower freq.toStr)
    some ((freq_mapping.lookup freq_lower).getD freq_lower)
  else none

/-- A calendar date as produced by a successful `datetime.strptime`. -/
structure Date where
  year : Nat
  month : Nat
  day : Nat
deriving DecidableEq, Repr

/-- Gregorian leap-year rule used by `datetime`. -/
def isLeapYear (y : Nat) : Bool :=
  y % 4 == 0 && (y % 100 != 0 || y % 400 == 0)

/-- Days in a month, as `datetime` validates them. -/
def daysInMonth (y m : Nat) : Nat :=
  if m == 2 then (if isLeapYear y then 29 else 28)
  else if m == 4 || m == 6 || m == 9 || m == 11 then 30
  else 31

/-- All characters are ASCII decimal digits. -/
def allDigits (cs : List Char) : Bool :=
  cs.all Char.isDigit

/-- The CPython `_strptime` field regex for `%d` (`3[01]|[12]\d|0[1-9]|[1-9]`)
and `%m` (`1[0-2]|0[1-9]|[1-9]`): one or two digits whose value lies in
`[1, hi]`.  Returns the parsed value. -/
def parseField2 (s : String) (hi : Nat) : Option Nat :=
  let cs := s.data
  if allDigits cs && (cs.length == 1 || cs.length == 2)
      && decide (1 ≤ decVal cs) && decide (decVal cs ≤ hi) then
    some (decVal cs)
  else none

/-- The CPython `_strptime` field regex for `%Y`: exactly four digits. -/
def parseField4 (s : String) : Option Nat :=
  let cs := s.data
  if allDigits cs && cs.length == 4 then some (decVal cs) else none

/-- `datetime(year, month, day)` validation on regex-accepted fields: the
year must be at least `MINYEAR = 1` and the day must fit the month. -/
def mkValidDate (y m d : Nat) : Option Date :=
  if 1 ≤ y ∧ d ≤ daysInMonth y m then some ⟨y, m, d⟩ else none

/-- `datetime.strptime(s, "%d/%m/%Y")`: the pattern matches the whole string
exactly when it splits on `/` into a day field, a month field and a four-digit
year (the digit classes contain no `/`, so the regex alternatives coincide
with the maximal `/`-separated parts), and the date is calendar-valid. -/
def strptimeDMY (s : String) : Option Date :=
  match pySplit '/' s with
  | [ds, ms, ys] =>
    match parseField2 ds 31, parseField2 ms 12, parseField4 ys with
    | some d, some m, some y => mkValidDate y m d
    | _, _, _ => none
  | _ => none

/-- `datetime.strptime(s, "%Y-%m-%d")`. -/
def strptimeYMD (s : String) : Option Date :=
  match pySplit '-' s with
  | [ys, ms, ds] =>
    match parseField4 ys, parseField2 ms 12, parseField2 ds 31 with
    | some y, some m, some d => mkValidDate y m d
    | _, _, _ => none
  | _ => none

/-- `datetime.strptime(s, "%m/%d/%Y")`. -/
def strptimeMDY (s : String) : Option Date :=
  match pySplit '/' s with
  | [ms, ds, ys] =>
    match parseField2 ms 12, parseField2 ds 31, parseField4 ys with
    | some m, some d, some y => mkValidDate y m d
    | _, _, _ => none
  | _ => none

/-- Zero-padded two-digit field of `strftime` (`%m`, `%d`). -/
def pad2 (n : Nat) : String :=
  if n < 10 then "0" ++ natToDec n else natToDec n

/-- `dt.strftime("%Y-%m-%d")` (glibc prints `%Y` unpadded; every year parsed
here came from a four-digit field anyway). -/
def isoFormat (d : Date) : String :=
  natToDec d.year ++ "-" ++ pad2 d.month ++ "-" ++ pad2 d.day

/-- `parse_date(date_str)`: null propagates; otherwise the three formats are
tried in order `%d/%m/%Y`, `%Y-%m-%d`, `%m/%d/%Y`, the first success is
reformatted to ISO, and if all fail the original string is returned (the
outer `except: return None` is unreachable: nothing after the `isna` check
raises). -/
def parse_date (date_str : Cell) : Option String :=
  if date_str.notna then
    let s := date_str.toStr
    match strptimeDMY s with
    | some d => some (isoFormat d)
    | none =>
      match strptimeYMD s with
      | some d => some (isoFormat d)
      | none =>
        match strptimeMDY s with
        | some d => some (isoFormat d)
        | none => some s
  else none

/-- `get_publisher(row)`: prefer `ministry_department`, fall back to
`state_department`, else `None`. -/
def get_publisher (row : Row) : Option String :=
  if row.ministry_department.notna then some row.ministry_department.toStr
  else if row.state_department.notna then some row.state_department.toStr
  else none

/-- `get_description(row)`: prefer `catalog_title`, appending `". " + note`
when `note` is also present; else fall back to `note`; else `None`. -/
def get_description (row : Row) : Option String :=
  if row.catalog_title.notna then
    some (row.catalog_title.toStr ++
      (if row.note.notna then ". " ++ row.note.toStr else ""))
  else if row.note.notna then some row.note.toStr
  else none

/-- RDF predicates used by the script, one constructor per distinct
vocabulary URI (`DCT.title` = `http://purl.org/dc/terms/title`, ...,
`DCAT.landingPage` = `http://www.w3.org/ns/dcat#landingPage`,
`RDF.type` = `http://www.w3.org/1999/02/22-rdf-syntax-ns#type`). -/
inductive Pred where
  | rdf_type : Pred
  | dct_title : Pred
  | dct_description : Pred
  | dct_issued : Pred
  | dct_modified : Pred
  | dct_created : Pred
  | dct_publisher : Pred
  | dct_accrualPeriodicity : Pred
  | dct_subject : Pred
  | dct_format : Pred
  | dcat_theme : Pred
  | dcat_landingPage : Pred
  | dcat_distribution : Pred
  | dcat_accessURL : Pred
  | dcat_downloadURL : Pred
  | dcat_mediaType : Pred
  | dcat_byteSize : Pred
deriving DecidableEq, Repr

/-- An rdflib term in object position: a plain literal, a datatyped string
literal, an integer-valued typed literal, or a `URIRef`. -/
inductive Obj where
  | lit : String → Obj
  | typed : String → String → Obj
  | intLit : Int → String → Obj
  | uri : String → Obj
deriving DecidableEq, Repr

/-- One RDF triple: subject URI (as a string), predicate, object. -/
abbrev Triple := String × Pred × Obj

/-- `XSD.date`. -/
def xsdDate : String := "http://www.w3.org/2001/XMLSchema#date"

/-- `XSD.integer`. -/
def xsdInteger : String := "http://www.w3.org/2001/XMLSchema#integer"

/-- `DCAT.Dataset` (class URI, object of `rdf:type`). -/
def dcatDataset : String := "http://www.w3.org/ns/dcat#Dataset"

/-- `DCAT.Distribution` (class URI, object of `rdf:type`). -/
def dcatDistribution : String := "http://www.w3.org/ns/dcat#Distribution"

/-- The fixed base origin of all synthesized URIs (the `DATAGOV` namespace). -/
def baseOrigin : String := "https://data.gov.in"

/-- `node_alias = row.get('node_alias', '')`: a missing key defaults to the
empty string (which is `notna`), a null cell stays null. -/
def aliasCell (row : Row) : Cell :=
  row.node_alias.getD (Cell.str "")

/-- Dataset URI synthesis, identical in both builders:
`https://data.gov.in{node_alias}` when the defaulted alias is non-null, else
`https://data.gov.in/dataset/{idx}`. -/
def datasetUri (idx : Nat) (row : Row) : String :=
  if (aliasCell row).notna then baseOrigin ++ (aliasCell row).toStr
  else baseOrigin ++ "/dataset/" ++ natToDec idx

/-- One Dublin Core flat record (`dublin_data.append({...})`). -/
structure DCRecord where
  dataset_uri : String
  title : Cell
  description : Option String
  issued : Option String
  modified : Option String
  created : Option String
  publisher : Option String
  accrualPeriodicity : Option String
  subject : Cell
  landingPage : Option String
deriving DecidableEq, Repr

/-- The triples `create_dublin_core_graph` adds for one row, in `g.add`
order. -/
def dcRowTriples (idx : Nat) (row : Row) : List Triple :=
  let u := datasetUri idx row
  let node_alias := aliasCell row
  let desc := get_description row
  let issued := parse_date row.published_date
  let modified := parse_date row.changed
  let created := parse_date row.created
  let publisher := get_publisher row
  let freq := normalize_frequency row.frequency
  (if row.title.notna then [(u, Pred.dct_title, Obj.lit row.title.toStr)] else [])
  ++ (if truthy desc then [(u, Pred.dct_description, Obj.lit (desc.getD ""))] else [])
  ++ (if truthy issued then [(u, Pred.dct_issued, Obj.typed (issued.getD "") xsdDate)] else [])
  ++ (if truthy modified then [(u, Pred.dct_modified, Obj.typed (modified.getD "") xsdDate)] else [])
  ++ (if truthy created then [(u, Pred.dct_created, Obj.typed (created.getD "") xsdDate)] else [])
  ++ (if truthy publisher then [(u, Pred.dct_publisher, Obj.lit (publisher.getD ""))] else [])
  ++ (if truthy freq then
        (if ("http".data.isPrefixOf (freq.getD "").data : Bool) then
          [(u, Pred.dct_accrualPeriodicity, Obj.uri (freq.getD ""))]
        else
          [(u, Pred.dct_accrualPeriodicity, Obj.lit (freq.getD ""))])
      else [])
  ++ (if row.sector.notna then
        (pySplit ';' row.sector.toStr).map
          (fun sector => (u, Pred.dct_subject, Obj.lit (pyStrip sector)))
      else [])
  ++ (if node_alias.notna then
        [(u, Pred.dcat_landingPage, Obj.uri (baseOrigin ++ node_alias.toStr))]
      else [])

/-- The flat record `create_dublin_core_graph` appends for one row. -/
def dcRowRecord (idx : Nat) (row : Row) : DCRecord :=
  let u := datasetUri idx row
  let node_alias := aliasCell row
  { dataset_uri := u
    title := row.title
    description := get_description row
    issued := parse_date row.published_date
    modified := parse_date row.changed
    created := parse_date row.created
    publisher := get_publisher row
    accrualPeriodicity := normalize_frequency row.frequency
    subject := row.sector
    landingPage :=
      if node_alias.notna then some (baseOrigin ++ node_alias.toStr) else none }

/-- `create_dublin_core_graph(df)`: the graph triples (in emission order) and
the flat records, one per row. -/
def create_dublin_core_graph (df : List Row) : List Triple × List DCRecord :=
  ((df.enum.map (fun p => dcRowTriples p.1 p.2)).flatten,
   df.enum.map (fun p => dcRowRecord p.1 p.2))

/-- Distribution URI for the API distribution:
`f"{dataset_uri}/distribution/api"`. -/
def apiDistUri (u : String) : String := u ++ "/distribution/api"

/-- Distribution URI for the file-download distribution:
`f"{dataset_uri}/distribution/file"`. -/
def fileDistUri (u : String) : String := u ++ "/distribution/file"

/-- `int(row['file_size'])`: an integer-valued numeric cell converts; a
string converts via the Python `int()` literal grammar (strip whitespace,
optional sign, digits with single internal underscores); anything else
raises, which the caller swallows. -/
def pyIntTail : List Char → Bool
  | [] => true
  | '_' :: c :: rest => c.isDigit && pyIntTail rest
  | ['_'] => false
  | c :: rest => c.isDigit && pyIntTail rest

/-- Body of a Python `int()` literal: a digit, then digits with single
internal underscores. -/
def pyIntBody : List Char → Bool
  | [] => false
  | c :: rest => c.isDigit && pyIntTail rest

/-- Python `int(s)` on a string. -/
def pyIntOfString (s : String) : Option Int :=
  let cs := (pyStrip s).data
  let signed : Int × List Char :=
    match cs with
    | '+' :: rest => (1, rest)
    | '-' :: rest => (-1, rest)
    | _ => (1, cs)
  if pyIntBody signed.2 then
    some (signed.1 * Int.ofNat (decVal (signed.2.filter (fun c => !(c == '_')))))
  else none

/-- Python `int(...)` of a cell value, `none` when it raises. -/
def pyInt : Cell → Option Int
  | .int n => some n
  | .str s => pyIntOfString s
  | _ => none

/-- One DCAT flat record (`dcat_data.append({...})`); `accessURL` and
`downloadURL` hold the raw cell or Python `None`. -/
structure DCATRecord where
  dataset_uri : String
  distribution_uri : String
  distribution_type : String
  accessURL : Option Cell
  downloadURL : Option Cell
  format : Cell
  byteSize : Cell
  title : Cell
deriving DecidableEq, Repr

/-- The triples `create_dcat_graph` adds for one row, in `g.add` order. -/
def dcatRowTriples (idx : Nat) (row : Row) : List Triple :=
  let u := datasetUri idx row
  let node_alias := aliasCell row
  let desc := get_description row
  let issued := parse_date row.published_date
  let modified := parse_date row.changed
  let publisher := get_publisher row
  let freq := normalize_frequency row.frequency
  [(u, Pred.rdf_type, Obj.uri dcatDataset)]
  ++ (if row.title.notna then [(u, Pred.dct_title, Obj.lit row.title.toStr)] else [])
  ++ (if truthy desc then [(u, Pred.dct_description, Obj.lit (desc.getD ""))] else [])
  ++ (if truthy issued then [(u, Pred.dct_issued, Obj.typed (issued.getD "") xsdDate)] else [])
  ++ (if truthy modified then [(u, Pred.dct_modified, Obj.typed (modified.getD "") xsdDate)] else [])
  ++ (if truthy publisher then [(u, Pred.dct_publisher, Obj.lit (publisher.getD ""))] else [])
  ++ (if truthy freq then
        (if ("http".data.isPrefixOf (freq.getD "").data : Bool) then
          [(u, Pred.dct_accrualPeriodicity, Obj.uri (freq.getD ""))]
        else
          [(u, Pred.dct_accrualPeriodicity, Obj.lit (freq.getD ""))])
      else [])
  ++ (if row.sector.notna then
        (pySplit ';' row.sector.toStr).map
          (fun sector => (u, Pred.dcat_theme, Obj.lit (pyStrip sector)))
      else [])
  ++ (if node_alias.notna then
        [(u, Pred.dcat_landingPage, Obj.uri (baseOrigin ++ node_alias.toStr))]
      else [])
  ++ (if row.datafile_url.notna then
        [(apiDistUri u, Pred.rdf_type, Obj.uri dcatDistribution),
         (u, Pred.dcat_distribution, Obj.uri (apiDistUri u)),
         (apiDistUri u, Pred.dcat_accessURL, Obj.uri row.datafile_url.toStr)]
        ++ (if row.file_format.notna then
              [(apiDistUri u, Pred.dct_format, Obj.lit row.file_format.toStr),
               (apiDistUri u, Pred.dcat_mediaType, Obj.lit row.file_format.toStr)]
            else [])
        ++ (if row.file_size.notna then
              (match pyInt row.file_size with
               | some n => [(apiDistUri u, Pred.dcat_byteSize, Obj.intLit n xsdInteger)]
               | none => [])
            else [])
      else [])
  ++ (if row.datafile.notna then
        [(fileDistUri u, Pred.rdf_type, Obj.uri dcatDistribution),
         (u, Pred.dcat_distribution, Obj.uri (fileDistUri u)),
         (fileDistUri u, Pred.dcat_downloadURL, Obj.uri row.datafile.toStr)]
        ++ (if row.file_format.notna then
              [(fileDistUri u, Pred.dct_format, Obj.lit row.file_format.toStr),
               (fileDistUri u, Pred.dcat_mediaType, Obj.lit row.file_format.toStr)]
            else [])
        ++ (if row.file_size.notna then
              (match pyInt row.file_size with
               | some n => [(fileDistUri u, Pred.dcat_byteSize, Obj.intLit n xsdInteger)]
               | none => [])
            else [])
      else [])

/-- The flat records `create_dcat_graph` appends for one row: one per
distribution actually present, API first. -/
def dcatRowRecords (idx : Nat) (row : Row) : List DCATRecord :=
  let u := datasetUri idx row
  (if row.datafile_url.notna then
    [{ dataset_uri := u
       distribution_uri := apiDistUri u
       distribution_type := "API"
       accessURL := some row.datafile_url
       downloadURL := none
       format := row.file_format
       byteSize := row.file_size
       title := row.title }]
   else [])
  ++ (if row.datafile.notna then
    [{ dataset_uri := u
       distribution_uri := fileDistUri u
       distribution_type := "File"
       accessURL := none
       downloadURL := some row.datafile
       format := row.file_format
       byteSize := row.file_size
       title := row.title }]
   else [])

/-- `create_dcat_graph(df)`: the graph triples (in emission order) and the
flat records. -/
def create_dcat_graph (df : List Row) : List Triple × List DCATRecord :=
  ((df.enum.map (fun p => dcatRowTriples p.1 p.2)).flatten,
   (df.enum.map (fun p => dcatRowRecords p.1 p.2)).flatten)

/-- A row with every cell null: the base point for concrete test rows. -/
def nullRow : Row :=
  ⟨Cell.na, Cell.na, Cell.na, Cell.na, Cell.na, Cell.na, Cell.na, Cell.na,
   Cell.na, Cell.na, Cell.na, Cell.na, Cell.na, Cell.na, Cell.na⟩

/-! ## General helper lemmas -/

theorem mem_ite_nil {α : Type} {c : Prop} [Decidable c] {a : α} {l : List α} :
    (a ∈ if c then l else []) ↔ c ∧ a ∈ l := by
  split <;> simp_all

theorem mem_ite {α : Type} {c : Prop} [Decidable c] {a : α} {l m : List α} :
    (a ∈ if c then l else m) ↔ (c ∧ a ∈ l) ∨ (¬c ∧ a ∈ m) := by
  split <;> simp_all

theorem countP_ite_nil {α : Type} {c : Prop} [Decidable c] (p : α → Bool) (l : List α) :
    (if c then l else []).countP p = if c then l.countP p else 0 := by
  split <;> simp

theorem countP_ite {α : Type} {c : Prop} [Decidable c] (p : α → Bool) (l m : List α) :
    (if c then l else m).countP p = if c then l.countP p else m.countP p := by
  split <;> rfl

theorem forall_mem_ite_nil {α : Type} {c : Prop} [Decidable c] {l : List α} {P : α → Prop} :
    (∀ x ∈ (if c then l else []), P x) ↔ (c → ∀ x ∈ l, P x) := by
  split <;> simp_all

theorem forall_mem_ite {α : Type} {c : Prop} [Decidable c] {l m : List α} {P : α → Prop} :
    (∀ x ∈ (if c then l else m), P x) ↔ ((c → ∀ x ∈ l, P x) ∧ (¬c → ∀ x ∈ m, P x)) := by
  split <;> simp_all

theorem string_append_cancel_left {s a b : String} (h : s ++ a = s ++ b) : a = b := by
  apply String.ext
  have hd := congrArg String.data h
  simp only [String.data_append] at hd
  exact List.append_cancel_left hd

theorem string_append_ne {s a b : String} (h : a ≠ b) : s ++ a ≠ s ++ b :=
  fun hc => h (string_append_cancel_left hc)

theorem string_self_ne_append {s t : String} (h : t ≠ "") : s ≠ s ++ t := by
  intro hc
  have hd := congrArg String.data hc
  simp only [String.data_append] at hd
  have h2 : s.data ++ [] = s.data ++ t.data := by simpa using hd
  have h3 : t.data = [] := (List.append_cancel_left h2).symm
  exact h (show t = "" from String.ext h3)

theorem decVal_append (cs : List Char) (c : Char) :
    decVal (cs ++ [c]) = decVal cs * 10 + (c.toNat - 48) := by
  simp [decVal, List.foldl_append]

theorem decDigit_toNat (d : Nat) (h : d < 10) : (decDigit d).toNat - 48 = d := by
  interval_cases d <;> decide

theorem decVal_natToDecAux (fuel : Nat) :
    ∀ n, n < 10 ^ fuel → decVal (natToDecAux fuel n) = n := by
  induction fuel with
  | zero =>
    intro n h
    interval_cases n
    simp [natToDecAux, decVal]
  | succ fuel ih =>
    intro n h
    by_cases h10 : n < 10
    · simp only [natToDecAux, if_pos h10]
      simpa [decVal] using decDigit_toNat n h10
    · simp only [natToDecAux, if_neg h10]
      rw [decVal_append]
      have hdiv : n / 10 < 10 ^ fuel := by
        rw [Nat.div_lt_iff_lt_mul (by norm_num)]
        simpa [pow_succ] using h
      rw [ih (n / 10) hdiv, decDigit_toNat (n % 10) (Nat.mod_lt n (by norm_num))]
      omega

theorem natToDec_injective : Function.Injective natToDec := by
  intro a b h
  have hd : natToDecAux (a + 1) a = natToDecAux (b + 1) b := congrArg String.data h
  have ha : a < 10 ^ (a + 1) :=
    lt_of_lt_of_le (Nat.lt_pow_self (by norm_num) a)
      (Nat.pow_le_pow_right (by norm_num) (Nat.le_succ a))
  have hb : b < 10 ^ (b + 1) :=
    lt_of_lt_of_le (Nat.lt_pow_self (by norm_num) b)
      (Nat.pow_le_pow_right (by norm_num) (Nat.le_succ b))
  calc a = decVal (natToDecAux (a + 1) a) := (decVal_natToDecAux _ a ha).symm
    _ = decVal (natToDecAux (b + 1) b) := by rw [hd]
    _ = b := decVal_natToDecAux _ b hb

/-! ## Claims -/

/-- **C1.** For every input row, the synthesized dataset URI equals the base
origin `https://data.gov.in` concatenated with the row's `node_alias`
verbatim when `node_alias` is present, and equals
`https://data.gov.in/dataset/` followed by the stringified ordinal index when
`node_alias` is absent (null); and two distinct rows both lacking
`node_alias` never receive the same index-based dataset URI. -/
theorem C1_dataset_uri_synthesis (idx : Nat) (row : Row) :
    (∀ s, row.node_alias = Cell.str s →
      datasetUri idx row = "https://data.gov.in" ++ s)
    ∧ (row.node_alias = Cell.na →
      datasetUri idx row = "https://data.gov.in/dataset/" ++ natToDec idx)
    ∧ (∀ jdx (rowB : Row), row.node_alias = Cell.na → rowB.node_alias = Cell.na →
      idx ≠ jdx → datasetUri idx row ≠ datasetUri jdx rowB) := by
  have hbase : ∀ (r : Row), r.node_alias = Cell.na →
      datasetUri idx r = "https://data.gov.in/dataset/" ++ natToDec idx := by
    intro r h
    simp only [datasetUri, aliasCell, h, Cell.getD, Cell.notna, Bool.false_eq_true, if_false,
      baseOrigin]
    apply String.ext
    simp [String.data_append, List.append_assoc]
  refine ⟨?_, hbase row, ?_⟩
  · intro s h
    simp [datasetUri, aliasCell, h, Cell.getD, Cell.notna, Cell.toStr, baseOrigin]
  · intro jdx rowB hA hB hne
    have h1 := hbase row hA
    have h2 : datasetUri jdx rowB = "https://data.gov.in/dataset/" ++ natToDec jdx := by
      simp only [datasetUri, aliasCell, hB, Cell.getD, Cell.notna, Bool.false_eq_true, if_false,
        baseOrigin]
      apply String.ext
      simp [String.data_append, List.append_assoc]
    rw [h1, h2]
    exact string_append_ne (fun hc => hne (natToDec_injective hc))

/-- Witness for C1 at concrete inputs. -/
theorem C1_dataset_uri_synthesis_witness :
    datasetUri 0 { nullRow with node_alias := Cell.str "/catalog/ds1" }
        = "https://data.gov.in" ++ "/catalog/ds1"
    ∧ datasetUri 2 nullRow = "https://data.gov.in/dataset/" ++ natToDec 2
    ∧ datasetUri 2 nullRow ≠ datasetUri 3 nullRow :=
  ⟨(C1_dataset_uri_synthesis 0 _).1 "/catalog/ds1" rfl,
   (C1_dataset_uri_synthesis 2 nullRow).2.1 rfl,
   (C1_dataset_uri_synthesis 2 nullRow).2.2 3 nullRow rfl rfl (by decide)⟩

/-- **C3.** `parse_date` tries `%d/%m/%Y`, then `%Y-%m-%d`, then `%m/%d/%Y`
in that fixed order, returns the first successful parse reformatted as ISO
year-month-day, returns the original string unmodified when every format
fails (it is total, so it never raises), maps the three documented examples
as the spec states, and maps an absent input to an absent result. -/
theorem C3_parse_date_spec :
    parse_date Cell.na = none
    ∧ parse_date Cell.absent = none
    ∧ (∀ s d, strptimeDMY s = some d →
        parse_date (Cell.str s) = some (isoFormat d))
    ∧ (∀ s d, strptimeDMY s = none → strptimeYMD s = some d →
        parse_date (Cell.str s) = some (isoFormat d))
    ∧ (∀ s d, strptimeDMY s = none → strptimeYMD s = none → strptimeMDY s = some d →
        parse_date (Cell.str s) = some (isoFormat d))
    ∧ (∀ s, strptimeDMY s = none → strptimeYMD s = none → strptimeMDY s = none →
        parse_date (Cell.str s) = some s)
    ∧ parse_date (Cell.str "03/04/2020") = some "2020-04-03"
    ∧ parse_date (Cell.str "2020-04-03") = some "2020-04-03"
    ∧ parse_date (Cell.str "not-a-date") = some "not-a-date" := by
  refine ⟨rfl, rfl, ?_, ?_, ?_, ?_, by decide, by decide, by decide⟩
  · intro s d h1
    simp [parse_date, Cell.notna, Cell.toStr, h1]
  · intro s d h1 h2
    simp [parse_date, Cell.notna, Cell.toStr, h1, h2]
  · intro s d h1 h2 h3
    simp [parse_date, Cell.notna, Cell.toStr, h1, h2, h3]
  · intro s h1 h2 h3
    simp [parse_date, Cell.notna, Cell.toStr, h1, h2, h3]

/-- Witness for C3: the day-first format wins on an ambiguous date. -/
theorem C3_parse_date_spec_witness :
    parse_date (Cell.str "05/06/2021") = some (isoFormat ⟨2021, 6, 5⟩) :=
  C3_parse_date_spec.2.2.1 "05/06/2021" ⟨2021, 6, 5⟩ (by decide)

/-- **C6.** `normalize_frequency` maps an absent input to an absent result;
a present input is lower-cased and trimmed and looked up in the fixed
5-entry vocabulary (`yearly` mapping to the `annual` URI), and an unmapped
value comes back as the lower-cased trimmed string unchanged; in particular
`normalize_frequency("Weekly ")` is the canonical weekly URI and
`normalize_frequency("fortnightly")` is `"fortnightly"`. -/
theorem C6_normalize_frequency_spec :
    normalize_frequency Cell.na = none
    ∧ normalize_frequency Cell.absent = none
    ∧ (∀ s, pyStrip (pyLower s) = "daily" →
        normalize_frequency (Cell.str s) = some "http://purl.org/cld/freq/daily")
    ∧ (∀ s, pyStrip (pyLower s) = "weekly" →
        normalize_frequency (Cell.str s) = some "http://purl.org/cld/freq/weekly")
    ∧ (∀ s, pyStrip (pyLower s) = "monthly" →
        normalize_frequency (Cell.str s) = some "http://purl.org/cld/freq/monthly")
    ∧ (∀ s, pyStrip (pyLower s) = "yearly" →
        normalize_frequency (Cell.str s) = some "http://purl.org/cld/freq/annual")
    ∧ (∀ s, pyStrip (pyLower s) = "quarterly" →
        normalize_frequency (Cell.str s) = some "http://purl.org/cld/freq/quarterly")
    ∧ (∀ s, pyStrip (pyLower s) ∉
          ["daily", "weekly", "monthly", "yearly", "quarterly"] →
        normalize_frequency (Cell.str s) = some (pyStrip (pyLower s)))
    ∧ normalize_frequency (Cell.str "Weekly ") = some "http://purl.org/cld/freq/weekly"
    ∧ normalize_frequency (Cell.str "fortnightly") = some "fortnightly" := by
  refine ⟨rfl, rfl, ?_, ?_, ?_, ?_, ?_, ?_, by decide, by decide⟩
  all_goals intro s h
  case _ => simp [normalize_frequency, Cell.notna, Cell.toStr, h, freq_mapping, List.lookup]
  case _ => simp [normalize_frequency, Cell.notna, Cell.toStr, h, freq_mapping, List.lookup]
  case _ => simp [normalize_frequency, Cell.notna, Cell.toStr, h, freq_mapping, List.lookup]
  case _ => simp [normalize_frequency, Cell.notna, Cell.toStr, h, freq_mapping, List.lookup]
  case _ => simp [normalize_frequency, Cell.notna, Cell.toStr, h, freq_mapping, List.lookup]
  case _ =>
    simp only [List.mem_cons, List.not_mem_nil, or_false, not_or] at h
    obtain ⟨h1, h2, h3, h4, h5⟩ := h
    simp [normalize_frequency, Cell.notna, Cell.toStr, freq_mapping, List.lookup,
      beq_eq_false_iff_ne.mpr h1, beq_eq_false_iff_ne.mpr h2, beq_eq_false_iff_ne.mpr h3,
      beq_eq_false_iff_ne.mpr h4, beq_eq_false_iff_ne.mpr h5]

/-- Witness for C6: an unmapped term passes through lower-cased and
trimmed. -/
theorem C6_normalize_frequency_spec_witness :
    normalize_frequency (Cell.str " Fortnightly ") = some (pyStrip (pyLower " Fortnightly ")) :=
  C6_normalize_frequency_spec.2.2.2.2.2.2.2.1 " Fortnightly " (by decide)

/-- **C8.** Both graph builders are deterministic pure functions of the
input table: re-running either on identical input yields identical triple
lists and identical flat-record lists (order included), and the synthesized
dataset identifier depends only on the row's `node_alias` cell and ordinal
index. -/
theorem C8_deterministic :
    (∀ df : List Row,
      create_dublin_core_graph df = create_dublin_core_graph df
      ∧ create_dcat_graph df = create_dcat_graph df)
    ∧ (∀ idx (rowA rowB : Row), rowA.node_alias = rowB.node_alias →
      datasetUri idx rowA = datasetUri idx rowB) := by
  refine ⟨fun df => ⟨rfl, rfl⟩, ?_⟩
  intro idx rowA rowB h
  simp [datasetUri, aliasCell, h]

/-- Witness for C8 at concrete inputs. -/
theorem C8_deterministic_witness :
    create_dublin_core_graph [nullRow] = create_dublin_core_graph [nullRow]
    ∧ datasetUri 1 { nullRow with title := Cell.str "A" }
        = datasetUri 1 { nullRow with title := Cell.str "B" } :=
  ⟨(C8_deterministic.1 [nullRow]).1, C8_deterministic.2 1 _ _ rfl⟩

/-- **C9.** A row whose `node_alias` key is missing from the row mapping
altogether gets the empty-string default, which counts as a present alias:
the dataset URI is the bare base origin `https://data.gov.in` (no path, no
index fallback), and a landing-page triple pointing at the bare base origin
is emitted by both builders. -/
theorem C9_missing_alias_key (idx : Nat) (row : Row)
    (h : row.node_alias = Cell.absent) :
    datasetUri idx row = "https://data.gov.in"
    ∧ ("https://data.gov.in", Pred.dcat_landingPage, Obj.uri "https://data.gov.in")
        ∈ dcRowTriples idx row
    ∧ ("https://data.gov.in", Pred.dcat_landingPage, Obj.uri "https://data.gov.in")
        ∈ dcatRowTriples idx row := by
  have hu : datasetUri idx row = "https://data.gov.in" := by
    simp [datasetUri, aliasCell, h, Cell.getD, Cell.notna, Cell.toStr, baseOrigin]
  refine ⟨hu, ?_, ?_⟩
  · simp [dcRowTriples, List.mem_append, mem_ite_nil, hu, aliasCell, h, Cell.getD,
      Cell.notna, Cell.toStr, baseOrigin]
  · simp [dcatRowTriples, List.mem_append, mem_ite_nil, hu, aliasCell, h, Cell.getD,
      Cell.notna, Cell.toStr, baseOrigin]

/-- Witness for C9 at a concrete row. -/
theorem C9_missing_alias_key_witness :
    datasetUri 5 { nullRow with node_alias := Cell.absent } = "https://data.gov.in" :=
  (C9_missing_alias_key 5 { nullRow with node_alias := Cell.absent } rfl).1

/-- **C2, counterexample.** The claim that the DCAT builder applies the
identical dataset-level policy for all three dates fails for `created`: on a
row whose only populated field is `created`, the Dublin Core builder emits a
`dct:created` triple but the DCAT builder emits no `dct:created` triple at
all. -/
theorem C2_created_counterexample :
    ("https://data.gov.in/dataset/0", Pred.dct_created, Obj.typed "2020-01-02" xsdDate)
        ∈ dcRowTriples 0 { nullRow with created := Cell.str "2020-01-02" }
    ∧ ∀ t ∈ dcatRowTriples 0 { nullRow with created := Cell.str "2020-01-02" },
        t.2.1 ≠ Pred.dct_created := by
  decide

/-- **C2, amended.** For every input row, the DCAT builder applies the
identical dataset-level field policy as the Dublin Core builder for title,
description, issued, modified, publisher, frequency and landing page (but
not `created`, which only the Dublin Core builder emits): whenever the
Dublin Core builder emits a triple with one of those predicates for the
row's dataset URI, the DCAT builder emits the same triple. -/
theorem C2_shared_dataset_fields (idx : Nat) (row : Row) (p : Pred) (o : Obj)
    (hp : p = Pred.dct_title ∨ p = Pred.dct_description ∨ p = Pred.dct_issued
      ∨ p = Pred.dct_modified ∨ p = Pred.dct_publisher
      ∨ p = Pred.dct_accrualPeriodicity ∨ p = Pred.dcat_landingPage)
    (hmem : (datasetUri idx row, p, o) ∈ dcRowTriples idx row) :
    (datasetUri idx row, p, o) ∈ dcatRowTriples idx row := by
  rcases hp with rfl | rfl | rfl | rfl | rfl | rfl | rfl <;>
    simp_all [dcRowTriples, dcatRowTriples, List.mem_append, mem_ite_nil, mem_ite]

/-- Witness for the amended C2 at a concrete row. -/
theorem C2_shared_dataset_fields_witness :
    ("https://data.gov.in/dataset/0", Pred.dct_title, Obj.lit "T")
        ∈ dcatRowTriples 0 { nullRow with title := Cell.str "T" } :=
  C2_shared_dataset_fields 0 { nullRow with title := Cell.str "T" }
    Pred.dct_title (Obj.lit "T") (Or.inl rfl) (by decide)

/-- **C7, counterexample.** The claim fails in two ways.  First, a present
but empty date string is unparseable, yet the truthiness test `if issued:`
drops its triple, so the builders do not always emit the passthrough
triple.  Second, for the `created` field only the Dublin Core builder emits
the passthrough triple; the DCAT builder never emits `dct:created`. -/
theorem C7_unparsed_date_counterexample :
    Cell.notna (Cell.str "") = true
    ∧ strptimeDMY "" = none ∧ strptimeYMD "" = none ∧ strptimeMDY "" = none
    ∧ (∀ t ∈ dcRowTriples 0 { nullRow with published_date := Cell.str "" },
        t.2.1 ≠ Pred.dct_issued)
    ∧ Cell.notna (Cell.str "not-a-date") = true
    ∧ ("https://data.gov.in/dataset/0", Pred.dct_created, Obj.typed "not-a-date" xsdDate)
        ∈ dcRowTriples 0 { nullRow with created := Cell.str "not-a-date" }
    ∧ (∀ t ∈ dcatRowTriples 0 { nullRow with created := Cell.str "not-a-date" },
        t.2.1 ≠ Pred.dct_created) := by
  decide

/-- **C7, amended.** For every row whose date field is present, non-empty,
and matches none of the parse formats, the builders that handle that field
(both builders for `issued` and `modified`; only the Dublin Core builder for
`created`) still emit the triple with the verbatim passthrough string as its
object, tagged with the `xsd:date` datatype exactly as a successfully parsed
date would be; the parse failure never aborts processing. -/
theorem C7_unparsed_date_passthrough (idx : Nat) (row : Row) :
    (∀ s, row.published_date = Cell.str s → s ≠ "" →
      strptimeDMY s = none → strptimeYMD s = none → strptimeMDY s = none →
      (datasetUri idx row, Pred.dct_issued, Obj.typed s xsdDate) ∈ dcRowTriples idx row
      ∧ (datasetUri idx row, Pred.dct_issued, Obj.typed s xsdDate) ∈ dcatRowTriples idx row)
    ∧ (∀ s, row.changed = Cell.str s → s ≠ "" →
      strptimeDMY s = none → strptimeYMD s = none → strptimeMDY s = none →
      (datasetUri idx row, Pred.dct_modified, Obj.typed s xsdDate) ∈ dcRowTriples idx row
      ∧ (datasetUri idx row, Pred.dct_modified, Obj.typed s xsdDate) ∈ dcatRowTriples idx row)
    ∧ (∀ s, row.created = Cell.str s → s ≠ "" →
      strptimeDMY s = none → strptimeYMD s = none → strptimeMDY s = none →
      (datasetUri idx row, Pred.dct_created, Obj.typed s xsdDate) ∈ dcRowTriples idx row) := by
  refine ⟨?_, ?_, ?_⟩ <;>
    (intro s hs hne h1 h2 h3
     first
     | exact
        ⟨by simp [dcRowTriples, List.mem_append, mem_ite_nil, mem_ite, parse_date,
            Cell.notna, Cell.toStr, hs, h1, h2, h3, truthy, beq_eq_false_iff_ne.mpr hne],
         by simp [dcatRowTriples, List.mem_append, mem_ite_nil, mem_ite, parse_date,
            Cell.notna, Cell.toStr, hs, h1, h2, h3, truthy, beq_eq_false_iff_ne.mpr hne]⟩
     | simp [dcRowTriples, List.mem_append, mem_ite_nil, mem_ite, parse_date,
        Cell.notna, Cell.toStr, hs, h1, h2, h3, truthy, beq_eq_false_iff_ne.mpr hne])

/-- Witness for the amended C7 at a concrete row. -/
theorem C7_unparsed_date_passthrough_witness :
    ("https://data.gov.in/dataset/0", Pred.dct_issued, Obj.typed "soon" xsdDate)
        ∈ dcRowTriples 0 { nullRow with published_date := Cell.str "soon" } :=
  ((C7_unparsed_date_passthrough 0 { nullRow with published_date := Cell.str "soon" }).1
    "soon" rfl (by decide) (by decide) (by decide) (by decide)).1

/-- The two distribution URIs of one dataset differ. -/
theorem apiDistUri_ne_fileDistUri (u : String) : apiDistUri u ≠ fileDistUri u :=
  string_append_ne (by decide)

/-- A dataset URI never equals its own API distribution URI. -/
theorem self_ne_apiDistUri (u : String) : ¬ u = apiDistUri u :=
  string_self_ne_append (by decide)

/-- A dataset URI never equals its own file distribution URI. -/
theorem self_ne_fileDistUri (u : String) : ¬ u = fileDistUri u :=
  string_self_ne_append (by decide)

/-- **C4.** A row with both `datafile_url` and `datafile` present produces
exactly two DCAT flat records, the first for the distribution URI
`dataset URI + "/distribution/api"` with kind label `"API"`, the second for
`dataset URI + "/distribution/file"` with kind label `"File"`; the two
distribution URIs are distinct; both Distribution-type triples are in the
graph and the row contributes exactly two Distribution-type triples; and a
distribution of a kind exists only if its corresponding source field is
present (with the field absent, no flat record of that kind and no triple
about that distribution URI is produced). -/
theorem C4_two_distributions :
    (∀ idx (row : Row), row.datafile_url.notna = true → row.datafile.notna = true →
      (dcatRowRecords idx row).map (fun r => (r.distribution_uri, r.distribution_type))
        = [(apiDistUri (datasetUri idx row), "API"), (fileDistUri (datasetUri idx row), "File")]
      ∧ apiDistUri (datasetUri idx row) ≠ fileDistUri (datasetUri idx row)
      ∧ (apiDistUri (datasetUri idx row), Pred.rdf_type, Obj.uri dcatDistribution)
          ∈ dcatRowTriples idx row
      ∧ (fileDistUri (datasetUri idx row), Pred.rdf_type, Obj.uri dcatDistribution)
          ∈ dcatRowTriples idx row
      ∧ (dcatRowTriples idx row).countP
          (fun t => t.2.1 == Pred.rdf_type && t.2.2 == Obj.uri dcatDistribution) = 2)
    ∧ (∀ idx (row : Row), row.datafile_url.notna = false →
        (∀ r ∈ dcatRowRecords idx row, r.distribution_type ≠ "API")
        ∧ (dcatRowTriples idx row).countP
            (fun t => t.1 == apiDistUri (datasetUri idx row)) = 0)
    ∧ (∀ idx (row : Row), row.datafile.notna = false →
        (∀ r ∈ dcatRowRecords idx row, r.distribution_type ≠ "File")
        ∧ (dcatRowTriples idx row).countP
            (fun t => t.1 == fileDistUri (datasetUri idx row)) = 0) := by
  refine ⟨?_, ?_, ?_⟩
  · intro idx row hurl hfile
    refine ⟨by simp [dcatRowRecords, hurl, hfile], apiDistUri_ne_fileDistUri _, ?_, ?_, ?_⟩
    · simp [dcatRowTriples, List.mem_append, mem_ite_nil, mem_ite, hurl]
    · simp [dcatRowTriples, List.mem_append, mem_ite_nil, mem_ite, hfile]
    · rcases hsize : pyInt row.file_size with _ | n <;>
        simp [dcatRowTriples, hsize, List.countP_append, countP_ite_nil, countP_ite,
          List.countP_cons, List.countP_map, hurl, hfile, beq_iff_eq, Function.comp,
          (by decide : ¬(dcatDataset = dcatDistribution))]
  · intro idx row hurl
    constructor
    · simp only [dcatRowRecords, List.forall_mem_append, forall_mem_ite_nil,
        List.forall_mem_singleton]
      simp [hurl]
    · rcases hsize : pyInt row.file_size with _ | n <;>
        simp [dcatRowTriples, hsize, List.countP_append, countP_ite_nil, countP_ite,
          List.countP_cons, List.countP_map, hurl, beq_iff_eq, Function.comp,
          self_ne_apiDistUri (datasetUri idx row),
          (apiDistUri_ne_fileDistUri (datasetUri idx row)).symm]
  · intro idx row hfile
    constructor
    · simp only [dcatRowRecords, List.forall_mem_append, forall_mem_ite_nil,
        List.forall_mem_singleton]
      simp [hfile]
    · rcases hsize : pyInt row.file_size with _ | n <;>
        simp [dcatRowTriples, hsize, List.countP_append, countP_ite_nil, countP_ite,
          List.countP_cons, List.countP_map, hfile, beq_iff_eq, Function.comp,
          self_ne_fileDistUri (datasetUri idx row),
          apiDistUri_ne_fileDistUri (datasetUri idx row)]

/-- A concrete row with both distribution source fields present. -/
def bothDistRow : Row :=
  { nullRow with
    datafile_url := Cell.str "http://a", datafile := Cell.str "http://f" }

/-- Witness for C4 at a concrete row with both distribution fields set. -/
theorem C4_two_distributions_witness :
    (dcatRowRecords 0 bothDistRow).map (fun r => (r.distribution_uri, r.distribution_type))
      = [(apiDistUri (datasetUri 0 bothDistRow), "API"),
         (fileDistUri (datasetUri 0 bothDistRow), "File")] :=
  (C4_two_distributions.1 0 bothDistRow rfl rfl).1

/-- **C5.** A row in which neither `datafile_url` nor `datafile` is present
contributes zero DCAT flat records, yet still contributes exactly one triple
asserting that its dataset URI has RDF type `dcat:Dataset`. -/
theorem C5_no_distribution_row (idx : Nat) (row : Row)
    (h1 : row.datafile_url.notna = false) (h2 : row.datafile.notna = false) :
    dcatRowRecords idx row = []
    ∧ (datasetUri idx row, Pred.rdf_type, Obj.uri dcatDataset) ∈ dcatRowTriples idx row
    ∧ (dcatRowTriples idx row).countP
        (fun t => t == (datasetUri idx row, Pred.rdf_type, Obj.uri dcatDataset)) = 1 := by
  refine ⟨by simp [dcatRowRecords, h1, h2], ?_, ?_⟩
  · simp [dcatRowTriples, List.mem_append]
  · simp [dcatRowTriples, List.countP_append, countP_ite_nil, countP_ite, List.countP_cons,
      List.countP_map, h1, h2, beq_iff_eq, Function.comp]

/-- Witness for C5 at the all-null row. -/
theorem C5_no_distribution_row_witness :
    dcatRowRecords 0 nullRow = []
    ∧ (datasetUri 0 nullRow, Pred.rdf_type, Obj.uri dcatDataset) ∈ dcatRowTriples 0 nullRow :=
  ⟨(C5_no_distribution_row 0 nullRow rfl rfl).1, (C5_no_distribution_row 0 nullRow rfl rfl).2.1⟩

/-- **C10.** When a row's `file_size` is present but fails Python integer
coercion, the DCAT graph gets no `dcat:byteSize` triple for that row (the
failure is swallowed by the bare `except`, not raised by the total builder),
yet every flat record appended for that row still carries the raw unparsed
`file_size` cell in its `byteSize` field; in particular, with `datafile_url`
present, the API flat record exists and reports the raw size the graph
omits. -/
theorem C10_byte_size_coercion (idx : Nat) (row : Row)
    (hns : row.file_size.notna = true) (hf : pyInt row.file_size = none) :
    (∀ t ∈ dcatRowTriples idx row, t.2.1 ≠ Pred.dcat_byteSize)
    ∧ (∀ r ∈ dcatRowRecords idx row, r.byteSize = row.file_size)
    ∧ (row.datafile_url.notna = true →
      ∃ r ∈ dcatRowRecords idx row,
        r.distribution_uri = apiDistUri (datasetUri idx row)
        ∧ r.byteSize = row.file_size) := by
  refine ⟨?_, ?_, ?_⟩
  · have hc : (dcatRowTriples idx row).countP (fun t => t.2.1 == Pred.dcat_byteSize) = 0 := by
      simp [dcatRowTriples, hf, List.countP_append, countP_ite_nil, countP_ite,
        List.countP_cons, List.countP_map, beq_iff_eq, Function.comp]
    intro t ht
    have h0 := List.countP_eq_zero.mp hc t ht
    simpa using h0
  · intro r hr
    simp only [dcatRowRecords, List.mem_append, mem_ite_nil, List.mem_singleton] at hr
    rcases hr with ⟨_, rfl⟩ | ⟨_, rfl⟩ <;> rfl
  · intro hurl
    refine ⟨{ dataset_uri := datasetUri idx row
              distribution_uri := apiDistUri (datasetUri idx row)
              distribution_type := "API"
              accessURL := some row.datafile_url
              downloadURL := none
              format := row.file_format
              byteSize := row.file_size
              title := row.title }, ?_, rfl, rfl⟩
    simp [dcatRowRecords, hurl, List.mem_append, mem_ite_nil]

/-- A concrete row whose `file_size` cannot be coerced to an integer. -/
def badSizeRow : Row :=
  { nullRow with
    datafile_url := Cell.str "http://a", file_size := Cell.str "12MB" }

/-- Witness for C10 at a concrete row. -/
theorem C10_byte_size_coercion_witness :
    ∃ r ∈ dcatRowRecords 0 badSizeRow,
      r.distribution_uri = apiDistUri (datasetUri 0 badSizeRow)
      ∧ r.byteSize = badSizeRow.file_size :=
  (C10_byte_size_coercion 0 badSizeRow rfl (by decide)).2.2 rfl

end MetaConv
